import Mathlib

/-!
# Shuffle workflow of the Giphy plugin: shallow embedding and properties

Embedding of `shuffle.go` (command, action dispatcher, Cancel / Shuffle / Send
handlers) and of `gfycat.go` (the Gfycat provider's URL resolution).

Conventions of the embedding

* Go `string` is `String`; the strings handled here are valid UTF-8, on which
  byte-wise and character-wise suffix tests agree and `encoding/json`
  round-trips exactly.
* Go `int` is the 64-bit signed integer: a mathematical `Int` with the
  wrap-around of `+` made explicit (`wrapInt64`).
* The conversion `int(f)` of a `float64` that does not fit is left by Go to the
  implementation: the dispatcher is embedded for any conversion
  (`handleHTTPActionWith`), and `handleHTTPAction` is its amd64 instance.
* A Go `error` interface value is `Option GoError` (`none` is `nil`).
* A Go `interface{}` value is a `GoValue` (its dynamic type and value).
* Calls to the host API, to the provider, to the action handler and to the
  response writer are recorded, in program order, in a trace of `Event`s; a Go
  run-time panic stops the execution and keeps the trace produced so far.
-/

namespace Giphy

/-! ## Values and errors -/

/-- A finite `float64`, denoting `mant * 2 ^ exp`. -/
structure Float64 where
  mant : Int
  exp : Int
  deriving DecidableEq, Repr

/-- Go error value, identified by the text its `Error()` method returns. -/
structure GoError where
  text : String
  deriving DecidableEq, Repr

/-- Dynamic values held by a Go `interface{}`: the ones `encoding/json` decodes
into (`nil`, `bool`, `float64`, `string`, `[]interface{}`,
`map[string]interface{}`) and the `int` and `string` the plugin stores itself.
The elements of slices and maps are never inspected by the code embedded here
and are not represented. -/
inductive GoValue where
  | nil
  | bool (b : Bool)
  | int (i : Int)
  | float64 (f : Float64)
  | string (s : String)
  | slice
  | map
  deriving DecidableEq, Repr

/-- Go `map[string]interface{}`, as an association list (first binding wins). -/
abbrev StringMap := List (String × GoValue)

/-- The two-valued map index `v, ok := m[key]`; `none` is `ok = false`. -/
def mapLookup (m : StringMap) (key : String) : Option GoValue :=
  m.lookup key

/-- Run-time panics of the Go code embedded here. -/
inductive Panic where
  | nilDereference
  | typeAssertion
  deriving DecidableEq, Repr

/-! ## Host data model (`model` package of the host server) -/

/-- Integration of a button: `model.PostActionIntegration`. -/
structure PostActionIntegration where
  URL : String
  Context : StringMap
  deriving DecidableEq, Repr

/-- Button of an attachment: `model.PostAction` (type button). -/
structure PostAction where
  Name : String
  Integration : PostActionIntegration
  deriving DecidableEq, Repr

/-- Attachment of a post: `model.SlackAttachment`, with the field used here. -/
structure SlackAttachment where
  Actions : List PostAction
  deriving DecidableEq, Repr

/-- Values stored in `Post.Props` by the code embedded here. -/
inductive PropValue where
  | attachments (as : List SlackAttachment)
  | bool (b : Bool)
  deriving DecidableEq, Repr

/-- Post of the host: `model.Post`; fields not set by a literal are zero. -/
structure Post where
  Id : String := ""
  ChannelId : String := ""
  UserId : String := ""
  Message : String := ""
  Props : List (String × PropValue) := []
  CreateAt : Int := 0
  UpdateAt : Int := 0
  deriving DecidableEq, Repr

/-- Decoded button click: `model.PostActionIntegrationRequest`. -/
structure PostActionIntegrationRequest where
  UserId : String
  ChannelId : String
  PostId : String
  Context : StringMap
  deriving DecidableEq, Repr

/-- Body written on success: `model.PostActionIntegrationResponse`. -/
structure PostActionIntegrationResponse where
  Update : Option Post := none
  EphemeralText : String := ""
  deriving DecidableEq, Repr

/-- Answer of a slash command: `model.CommandResponse`. -/
structure CommandResponse where
  ResponseType : String
  Text : String
  Attachments : List SlackAttachment
  deriving DecidableEq, Repr

/-! ## Effects -/

/-- Observable calls, in program order. -/
inductive Event where
  | getGifURL (keywords : String) (counter : Int)
  | sendEphemeralPost (userId : String) (post : Post)
  | updateEphemeralPost (userId : String) (post : Post)
  | deleteEphemeralPost (userId : String) (post : Post)
  | createPost (post : Post)
  | logWarn (message : String) (err : Option GoError)
  | action (request : PostActionIntegrationRequest) (keywords gifURL : String) (counter : Int)
  | writeHeader (status : Int)
  | headerSet (key value : String)
  | write (body : PostActionIntegrationResponse)
  deriving DecidableEq, Repr

/-- Execution of a piece of Go code: the calls it made and either the value it
returned or the panic that stopped it. -/
structure Exec (α : Type) where
  trace : List Event
  result : Except Panic α

namespace Exec

/-- Return without any call. -/
def ret {α : Type} (a : α) : Exec α := ⟨[], .ok a⟩

/-- Sequencing: a panic of the first part skips the second. -/
def andThen {α β : Type} (x : Exec α) (f : α → Exec β) : Exec β :=
  match x.result with
  | .error p => ⟨x.trace, .error p⟩
  | .ok a => ⟨x.trace ++ (f a).trace, (f a).result⟩

/-- One recorded call. -/
def emit (e : Event) : Exec Unit := ⟨[e], .ok ()⟩

/-- Go panic. -/
def panic {α : Type} (p : Panic) : Exec α := ⟨[], .error p⟩

end Exec

instance : Monad Exec where
  pure := Exec.ret
  bind := Exec.andThen

/-! ## Numbers -/

/-- Go `int` wrap-around: the 64-bit two's complement value of an integer. -/
def wrapInt64 (x : Int) : Int :=
  (x + 2 ^ 63) % 2 ^ 64 - 2 ^ 63

/-- Number of binary digits of `n` beyond the 53 a `float64` mantissa holds,
for the magnitude of a 64-bit integer (`n ≤ 2 ^ 64`). -/
def excessBits (n : Nat) : Nat :=
  ((List.range 12).filter (fun k => 2 ^ (53 + k) ≤ n)).length

/-- The `float64` nearest to the magnitude `n ≤ 2 ^ 64` of a 64-bit integer,
ties to even: the value `encoding/json` decodes an integer literal to. -/
def float64OfNat (n : Nat) : Nat :=
  if n < 2 ^ 53 then n
  else
    let e := excessBits n
    let q := n / 2 ^ e
    let r := n % 2 ^ e
    let half := 2 ^ (e - 1)
    let q1 := if half < r ∨ (r = half ∧ q % 2 = 1) then q + 1 else q
    q1 * 2 ^ e

/-- The `float64` nearest to an integer (rounding is symmetric in the sign). -/
def float64OfInt (i : Int) : Float64 :=
  ⟨i.sign * (float64OfNat i.natAbs : Int), 0⟩

/-- Integer part of a finite `float64` (rounding toward zero). -/
def truncFloat64 (f : Float64) : Int :=
  if 0 ≤ f.exp then f.mant * 2 ^ f.exp.toNat
  else Int.tdiv f.mant (2 ^ (-f.exp).toNat)

/-- Go conversion `int(f)` of a finite `float64`: the integer part when it fits
in 64 bits. Go leaves the other case to the implementation; the value taken
here is the one of amd64 (the smallest `int`). -/
def intOfFloat64 (f : Float64) : Int :=
  let t := truncFloat64 f
  if -(2 ^ 63) ≤ t ∧ t < 2 ^ 63 then t else -(2 ^ 63)

/-- Go conversion `int(f)` of a finite `float64` on the implementations whose
conversion saturates (arm64): the integer part when it fits in 64 bits, the
nearest `int` otherwise. -/
def intOfFloat64Saturating (f : Float64) : Int :=
  let t := truncFloat64 f
  if t < -(2 ^ 63) then -(2 ^ 63) else if 2 ^ 63 ≤ t then 2 ^ 63 - 1 else t

/-- Value obtained by encoding an `interface{}` with `encoding/json` and
decoding the text into an `interface{}` again: numbers come back as
`float64`. -/
def jsonRoundTripValue : GoValue → GoValue
  | .int i => .float64 (float64OfInt i)
  | v => v

/-- Map obtained by the JSON round trip of a `map[string]interface{}`. -/
def jsonRoundTrip (m : StringMap) : StringMap :=
  m.map (fun kv => (kv.1, jsonRoundTripValue kv.2))

/-- Go `strings.HasSuffix`. -/
def hasSuffix (s suffix : String) : Bool :=
  decide (suffix.length ≤ s.length) && (s.data.drop (s.length - suffix.length) == suffix.data)

/-! ## Parts of the plugin that are not in the two embedded files -/

/-- Modelled from the spec: the constant `contextKeywords`, key of the keywords
in an action context (declared outside the embedded files). -/
def contextKeywords : String := "keywords"

/-- Modelled from the spec: the constant `contextGifURL`, key of the media URL
in an action context (declared outside the embedded files). -/
def contextGifURL : String := "gif_url"

/-- Modelled from the spec: the constant `contextCounter`, key of the attempt
counter in an action context (declared outside the embedded files). -/
def contextCounter : String := "counter"

/-- Modelled from the spec: the helper `generateButton` (declared outside the
embedded files) builds the button of the given name that posts to the given
action URL and carries the given context. -/
def generateButton (name urlAction : String) (context : StringMap) : PostAction :=
  { Name := name, Integration := { URL := urlAction, Context := context } }

/-- Host constant `model.COMMAND_RESPONSE_TYPE_EPHEMERAL`. -/
def COMMAND_RESPONSE_TYPE_EPHEMERAL : String := "ephemeral"

/-- The plugin instance, as far as `shuffle.go` uses it: the provider selected
at start-up, the answers of the host, and the helpers and constants declared
outside the embedded files (taken as they are, uninterpreted). -/
structure Plugin where
  /-- Result `(url, err)` of `p.gifProvider.getGifURL(&p.API, p.config(), keywords, counter)`. -/
  gifProvider : String → Int → String × Option GoError
  /-- Error result of `p.API.CreatePost(post)`. -/
  createPost : Post → Option GoError
  /-- Result of the n-th call of `model.GetMillis()` in a handler. -/
  getMillis : Nat → Int
  generateGifCaption : String → String → String
  getCommandKeywords : String → String → String
  appError : String → Option GoError → GoError
  triggerGifs : String
  URLCancel : String
  URLShuffle : String
  URLSend : String

/-- Go type `handlerFunc`. -/
abbrev HandlerFunc := PostActionIntegrationRequest → String → String → Int → Exec Int

/-! ## shuffle.go -/

/-- The map literal `actionContext` of `generateShufflePostAttachments`. -/
def actionContext (keywords gifURL : String) (counter : Int) : StringMap :=
  [(contextKeywords, .string keywords), (contextGifURL, .string gifURL), (contextCounter, .int counter)]

/-- Go `generateShufflePostAttachments`. -/
def generateShufflePostAttachments (p : Plugin) (keywords gifURL : String) (counter : Int) :
    List SlackAttachment :=
  let actions : List PostAction := []
  let actions := actions ++ [generateButton "Cancel" p.URLCancel (actionContext keywords gifURL counter)]
  let actions := actions ++ [generateButton "Shuffle" p.URLShuffle (actionContext keywords gifURL counter)]
  let actions := actions ++ [generateButton "Send" p.URLSend (actionContext keywords gifURL counter)]
  let attachments : List SlackAttachment := []
  attachments ++ [{ Actions := actions }]

/-- Go `executeCommandGifShuffle`; the error case returns the wrapped error. -/
def executeCommandGifShuffle (p : Plugin) (command : String) : Exec (Except GoError CommandResponse) := do
  let counter : Int := 0
  let keywords := p.getCommandKeywords command p.triggerGifs
  Exec.emit (.getGifURL keywords counter)
  match p.gifProvider keywords counter with
  | (_, some err) => pure (.error (p.appError "Unable to get GIF URL" (some err)))
  | (gifURL, none) =>
    let text := p.generateGifCaption keywords gifURL
    let attachments := generateShufflePostAttachments p keywords gifURL counter
    pure (.ok { ResponseType := COMMAND_RESPONSE_TYPE_EPHEMERAL, Text := text, Attachments := attachments })

/-- Go `logHandlerError`: `err.Error()` is evaluated while the arguments of
`SendEphemeralPost` are built and panics on a nil `err`. -/
def logHandlerError (p : Plugin) (message : String) (err : Option GoError)
    (request : PostActionIntegrationRequest) : Exec Unit := do
  let errText ← (match err with
    | none => Exec.panic .nilDereference
    | some e => pure e.text : Exec String)
  Exec.emit (.sendEphemeralPost request.UserId
    { Message := "Giphy Plugin: " ++ message ++ "\n`" ++ errText ++ "`",
      ChannelId := request.ChannelId,
      Props := [("sent_by_plugin", .bool true)] })
  Exec.emit (.logWarn message (some (p.appError "" err)))

/-- Go type assertion `v.(string)`. -/
def assertString : GoValue → Exec String
  | .string s => pure s
  | _ => Exec.panic .typeAssertion

/-- Go type assertion `v.(float64)`. -/
def assertFloat64 : GoValue → Exec Float64
  | .float64 f => pure f
  | _ => Exec.panic .typeAssertion

/-- Whether the dynamic type of a value is `string`. -/
def isString : GoValue → Bool
  | .string _ => true
  | _ => false

/-- Whether the dynamic type of a value is `float64`, the type of every number
decoded from JSON. -/
def isFloat64 : GoValue → Bool
  | .float64 _ => true
  | _ => false

/-- Go `handleHTTPAction`, for a given implementation `toInt` of the
conversion `int(f)`, whose result Go leaves to the implementation when the
value does not fit. The argument `parsed` is the result of
`model.PostActionIntegrationRequestFromJson(r.Body)` (`none` is `nil`). A key
that is missing leaves the zero value `nil` in the variable; none of the three
checks returns. The call of `action` is recorded before it runs. -/
def handleHTTPActionWith (toInt : Float64 → Int) (p : Plugin) (action : HandlerFunc)
    (parsed : Option PostActionIntegrationRequest) : Exec Unit :=
  match parsed with
  | none => Exec.emit (.writeHeader 400)
  | some request => do
    let gifURL := (mapLookup request.Context contextGifURL).getD .nil
    if (mapLookup request.Context contextGifURL).isNone then
      logHandlerError p ("Missing " ++ contextGifURL ++ " from action request context") none request
      Exec.emit (.writeHeader 400)
    let keywords := (mapLookup request.Context contextKeywords).getD .nil
    if (mapLookup request.Context contextKeywords).isNone then
      logHandlerError p ("Missing " ++ contextKeywords ++ " from action request context") none request
      Exec.emit (.writeHeader 400)
    let counter := (mapLookup request.Context contextCounter).getD .nil
    if (mapLookup request.Context contextCounter).isNone then
      logHandlerError p ("Missing " ++ contextCounter ++ " from action request context") none request
      Exec.emit (.writeHeader 400)
    let keywordsArg ← assertString keywords
    let gifURLArg ← assertString gifURL
    let counterArg ← assertFloat64 counter
    Exec.emit (.action request keywordsArg gifURLArg (toInt counterArg))
    let httpStatus ← action request keywordsArg gifURLArg (toInt counterArg)
    Exec.emit (.writeHeader httpStatus)
    if httpStatus = 200 then
      Exec.emit (.headerSet "Content-Type" "application/json")
      Exec.emit (.write {})

/-- Go `handleHTTPAction`, with the conversion `int(f)` of amd64. -/
def handleHTTPAction (p : Plugin) (action : HandlerFunc)
    (parsed : Option PostActionIntegrationRequest) : Exec Unit :=
  handleHTTPActionWith intOfFloat64 p action parsed

/-- Go `handleCancel`. -/
def handleCancel (_p : Plugin) (request : PostActionIntegrationRequest)
    (_keywords _gifURL : String) (_counter : Int) : Exec Int := do
  Exec.emit (.deleteEphemeralPost request.UserId { Id := request.PostId })
  pure 200

/-- Go `handleShuffle`. -/
def handleShuffle (p : Plugin) (request : PostActionIntegrationRequest)
    (keywords _gifURL : String) (counter : Int) : Exec Int := do
  let counter := wrapInt64 (counter + 1)
  Exec.emit (.getGifURL keywords counter)
  match p.gifProvider keywords counter with
  | (_, some err) =>
    logHandlerError p "Unable to fetch a new Gif for shuffling" (some err) request
    pure 503
  | (shuffledGifURL, none) =>
    Exec.emit (.updateEphemeralPost request.UserId
      { Id := request.PostId,
        ChannelId := request.ChannelId,
        UserId := request.UserId,
        Message := p.generateGifCaption keywords shuffledGifURL,
        Props := [("attachments",
          .attachments (generateShufflePostAttachments p keywords shuffledGifURL counter))],
        CreateAt := p.getMillis 0,
        UpdateAt := p.getMillis 1 })
    pure 200

/-- Go `handlePost`. -/
def handlePost (p : Plugin) (request : PostActionIntegrationRequest)
    (keywords gifURL : String) (_counter : Int) : Exec Int := do
  Exec.emit (.deleteEphemeralPost request.UserId { Id := request.PostId })
  let post : Post :=
    { Message := p.generateGifCaption keywords gifURL,
      UserId := request.UserId,
      ChannelId := request.ChannelId }
  Exec.emit (.createPost post)
  match p.createPost post with
  | some err =>
    logHandlerError p "Unable to create post : " (some err) request
    pure 500
  | none => pure 200

/-! ## gfycat.go -/

/-- The element type of `gfyGIF.ContentUrls`. -/
structure ContentUrl where
  Url : String := ""
  deriving DecidableEq, Repr

/-- Go `gfyGIF`; `ContentUrls` is a map, as an association list. -/
structure GfyGIF where
  GifUrl : String
  ContentUrls : List (String × ContentUrl)
  deriving DecidableEq, Repr

/-- Go `gfySearchResult`. -/
structure GfySearchResult where
  Cursor : String
  Gfycats : List GfyGIF
  deriving DecidableEq, Repr

/-- The configuration, with the field `gfycat.go` reads. -/
structure PluginConfiguration where
  RenditionGfycat : String
  deriving DecidableEq, Repr

/-- What the network answers to the search request of `getGifURL`: the error
of `http.NewRequest`, the error of `http.DefaultClient.Do`, the status code of
the response and the result of decoding its body into a `gfySearchResult`.
A field is read only if the steps before it succeeded. -/
structure GfycatExchange where
  newRequestErr : Option GoError
  doErr : Option GoError
  StatusCode : Int
  decoded : Except GoError GfySearchResult

/-- Go map index `m[key]` with the zero value for a missing key. -/
def contentUrlAt (m : List (String × ContentUrl)) (key : String) : ContentUrl :=
  (m.lookup key).getD {}

/-- Go `gfyCatProvider.getGifURL`, as a function of the network's answer;
`appError` is declared outside the embedded files and taken as it is. -/
def getGifURL (appError : String → Option GoError → GoError) (config : PluginConfiguration)
    (x : GfycatExchange) : String × Option GoError :=
  match x.newRequestErr with
  | some err => ("", some (appError "Could not generate GfyCat search URL" (some err)))
  | none =>
  match x.doErr with
  | some err => ("", some (appError "Error calling the GfyCat search API" (some err)))
  | none =>
  if x.StatusCode ≠ 200 then
    ("", some (appError
      ("Error calling the GfyCat search API (HTTP Status: " ++ toString x.StatusCode ++ ")") none))
  else
  match x.decoded with
  | .error err => ("", some (appError "Could not parse Gfycat search response body" (some err)))
  | .ok response =>
  match response.Gfycats with
  | [] => ("", some (appError "An empty list of GIFs was returned" none))
  | gif :: _ =>
    let url := (contentUrlAt gif.ContentUrls config.RenditionGfycat).Url
    let url := if url = "" ∨ hasSuffix url ".webm" ∨ hasSuffix url ".mp4" then gif.GifUrl else url
    (url, none)

/-! ## The rendition fallback, in the words of the specification -/

/-- The specification's rendition fallback: the preferred URL unless it is
empty or ends in a video-only suffix, in which case the generic URL. -/
def resolveURL (preferredURL genericURL : String) : String :=
  if preferredURL = "" then genericURL
  else if hasSuffix preferredURL ".webm" then genericURL
  else if hasSuffix preferredURL ".mp4" then genericURL
  else preferredURL

/-- The network's answer for a successful search with the given decoded body. -/
def successfulExchange (response : GfySearchResult) : GfycatExchange :=
  { newRequestErr := none, doErr := none, StatusCode := 200, decoded := .ok response }

/-! ## Observations on a trace -/

/-- The `DeleteEphemeralPost` calls of a trace: user and post. -/
def deleteCalls (t : List Event) : List (String × Post) :=
  t.filterMap (fun e => match e with
    | .deleteEphemeralPost u post => some (u, post)
    | _ => none)

/-- The `CreatePost` calls of a trace. -/
def createCalls (t : List Event) : List Post :=
  t.filterMap (fun e => match e with
    | .createPost post => some post
    | _ => none)

/-- The `UpdateEphemeralPost` calls of a trace: user and post. -/
def updateCalls (t : List Event) : List (String × Post) :=
  t.filterMap (fun e => match e with
    | .updateEphemeralPost u post => some (u, post)
    | _ => none)

/-- The `SendEphemeralPost` calls of a trace: user and post. -/
def sendCalls (t : List Event) : List (String × Post) :=
  t.filterMap (fun e => match e with
    | .sendEphemeralPost u post => some (u, post)
    | _ => none)

/-- The provider calls of a trace: keywords and attempt. -/
def providerCalls (t : List Event) : List (String × Int) :=
  t.filterMap (fun e => match e with
    | .getGifURL keywords counter => some (keywords, counter)
    | _ => none)

/-- The action handler calls of a trace, with their arguments. -/
def actionCalls (t : List Event) : List (PostActionIntegrationRequest × String × String × Int) :=
  t.filterMap (fun e => match e with
    | .action request keywords gifURL counter => some (request, keywords, gifURL, counter)
    | _ => none)

/-- The status codes written by a trace. -/
def statusesWritten (t : List Event) : List Int :=
  t.filterMap (fun e => match e with
    | .writeHeader status => some status
    | _ => none)

/-- The contexts carried by the buttons of a list of attachments. -/
def buttonContexts (as : List SlackAttachment) : List StringMap :=
  as.flatMap (fun a => a.Actions.map (fun b => b.Integration.Context))

/-! ## A concrete plugin, for evaluation -/

/-- A plugin whose provider answers `https://a/2.gif` (or fails with a timeout)
and whose host accepts (or refuses) the creation of a post. -/
def samplePlugin (providerFails createFails : Bool) : Plugin :=
  { gifProvider := fun _ _ =>
      if providerFails then ("", some ⟨"timeout"⟩) else ("https://a/2.gif", none),
    createPost := fun _ => if createFails then some ⟨"refused"⟩ else none,
    getMillis := fun n => 1000 + n,
    generateGifCaption := fun keywords gifURL => keywords ++ " " ++ gifURL,
    getCommandKeywords := fun command trigger => ⟨command.data.drop (trigger.length + 2)⟩,
    appError := fun message err => ⟨message ++ (err.map (fun e => e.text)).getD ""⟩,
    triggerGifs := "gifshuffle",
    URLCancel := "/cancel",
    URLShuffle := "/shuffle",
    URLSend := "/send" }

/-- A click on a button of post `post1` by `user1` in `channel1`. -/
def sampleRequest (context : StringMap) : PostActionIntegrationRequest :=
  { UserId := "user1", ChannelId := "channel1", PostId := "post1", Context := context }

/-- The decoded body of a search answer with one result. -/
def sampleResponse (gifUrl : String) (contentUrls : List (String × ContentUrl)) : GfySearchResult :=
  { Cursor := "", Gfycats := [{ GifUrl := gifUrl, ContentUrls := contentUrls }] }

/-! ## Arithmetic of the counter -/

/-- Go addition of 1 does not wrap below the largest `int`. -/
theorem wrapInt64_succ (counter : Int) (hlo : -(2 ^ 63) ≤ counter) (hhi : counter < 2 ^ 63 - 1) :
    wrapInt64 (counter + 1) = counter + 1 := by
  unfold wrapInt64
  have h0 : (0 : Int) ≤ counter + 1 + 2 ^ 63 := by omega
  have h1 : counter + 1 + 2 ^ 63 < 2 ^ 64 := by omega
  rw [Int.emod_eq_of_lt h0 h1]
  omega

/-- Every integer from 0 to `2 ^ 53` is a `float64`. -/
theorem float64OfInt_exact (counter : Int) (h0 : 0 ≤ counter) (h53 : counter ≤ 2 ^ 53) :
    float64OfInt counter = ⟨counter, 0⟩ := by
  have hn : float64OfNat counter.natAbs = counter.natAbs := by
    by_cases hlt : counter.natAbs < 2 ^ 53
    · simp only [float64OfNat, hlt, if_true]
    · have hEq : counter.natAbs = 2 ^ 53 := by omega
      rw [hEq]
      decide
  unfold float64OfInt
  rw [hn, Int.sign_mul_natAbs]

/-- The conversion `int(f)` of an integral `float64` within the range of `int`
is exact. -/
theorem intOfFloat64_exact (counter : Int) (hlo : -(2 ^ 63) ≤ counter) (hhi : counter < 2 ^ 63) :
    intOfFloat64 ⟨counter, 0⟩ = counter := by
  simp only [intOfFloat64, truncFloat64]
  simp
  omega

/-! ## The dispatcher -/

/-- C1, what the code does: on a parsed request whose context lacks one of the
keys `keywords`, `gif_url`, `counter`, `handleHTTPAction` stops on the nil
dereference of `logHandlerError` (called with a nil error) before anything is
written: the handler is not invoked, and no status, in particular no 400, is
written. -/
theorem handleHTTPAction_missing_key (p : Plugin) (action : HandlerFunc)
    (request : PostActionIntegrationRequest)
    (hmiss : mapLookup request.Context "keywords" = none
      ∨ mapLookup request.Context "gif_url" = none
      ∨ mapLookup request.Context "counter" = none) :
    handleHTTPAction p action (some request) = ⟨[], .error .nilDereference⟩
      ∧ actionCalls (handleHTTPAction p action (some request)).trace = []
      ∧ statusesWritten (handleHTTPAction p action (some request)).trace = [] := by
  have e : handleHTTPAction p action (some request) = ⟨[], .error .nilDereference⟩ := by
    cases h1 : mapLookup request.Context contextGifURL with
    | none => simp only [handleHTTPAction, handleHTTPActionWith, h1]; rfl
    | some gv =>
      cases h2 : mapLookup request.Context contextKeywords with
      | none => simp only [handleHTTPAction, handleHTTPActionWith, h1, h2]; rfl
      | some kv =>
        cases h3 : mapLookup request.Context contextCounter with
        | none => simp only [handleHTTPAction, handleHTTPActionWith, h1, h2, h3]; rfl
        | some cv =>
          exfalso
          simp only [contextGifURL, contextKeywords, contextCounter] at h1 h2 h3
          rcases hmiss with h | h | h <;> simp_all
  rw [e]
  exact ⟨rfl, rfl, rfl⟩

/-- Evaluation of C1 on a click whose context lacks `gif_url`. -/
theorem handleHTTPAction_missing_key_witness :
    (mapLookup (sampleRequest [("keywords", .string "cat nap"), ("counter", .float64 ⟨0, 0⟩)]).Context
          "keywords" = none
        ∨ mapLookup (sampleRequest [("keywords", .string "cat nap"), ("counter", .float64 ⟨0, 0⟩)]).Context
          "gif_url" = none
        ∨ mapLookup (sampleRequest [("keywords", .string "cat nap"), ("counter", .float64 ⟨0, 0⟩)]).Context
          "counter" = none)
      ∧ handleHTTPAction (samplePlugin false false) (handleCancel (samplePlugin false false))
          (some (sampleRequest [("keywords", .string "cat nap"), ("counter", .float64 ⟨0, 0⟩)]))
        = ⟨[], .error .nilDereference⟩
      ∧ actionCalls (handleHTTPAction (samplePlugin false false) (handleCancel (samplePlugin false false))
          (some (sampleRequest [("keywords", .string "cat nap"), ("counter", .float64 ⟨0, 0⟩)]))).trace
        = []
      ∧ statusesWritten (handleHTTPAction (samplePlugin false false)
          (handleCancel (samplePlugin false false))
          (some (sampleRequest [("keywords", .string "cat nap"), ("counter", .float64 ⟨0, 0⟩)]))).trace
        = [] :=
  ⟨Or.inr (Or.inl rfl),
   handleHTTPAction_missing_key (samplePlugin false false) (handleCancel (samplePlugin false false))
     (sampleRequest [("keywords", .string "cat nap"), ("counter", .float64 ⟨0, 0⟩)])
     (Or.inr (Or.inl rfl))⟩

/-- C2, what the code does: on a parsed request whose context holds the three
keys, one of them with a value of the wrong type (`keywords` or `gif_url` not a
string, or `counter` not a `float64`), `handleHTTPAction` stops on the failed
type assertion: the handler is not invoked, and no status, in particular no
400, is written. -/
theorem handleHTTPAction_mistyped (p : Plugin) (action : HandlerFunc)
    (request : PostActionIntegrationRequest) (kv gv cv : GoValue)
    (hk : mapLookup request.Context "keywords" = some kv)
    (hg : mapLookup request.Context "gif_url" = some gv)
    (hc : mapLookup request.Context "counter" = some cv)
    (hbad : (isString kv && isString gv && isFloat64 cv) = false) :
    handleHTTPAction p action (some request) = ⟨[], .error .typeAssertion⟩
      ∧ actionCalls (handleHTTPAction p action (some request)).trace = []
      ∧ statusesWritten (handleHTTPAction p action (some request)).trace = [] := by
  have hk1 : mapLookup request.Context contextKeywords = some kv := hk
  have hg1 : mapLookup request.Context contextGifURL = some gv := hg
  have hc1 : mapLookup request.Context contextCounter = some cv := hc
  have e : handleHTTPAction p action (some request) = ⟨[], .error .typeAssertion⟩ := by
    simp only [handleHTTPAction, handleHTTPActionWith, hk1, hg1, hc1]
    cases kv <;> try rfl
    cases gv <;> try rfl
    cases cv <;> try rfl
    simp [isString, isFloat64] at hbad
  rw [e]
  exact ⟨rfl, rfl, rfl⟩

/-- Evaluation of C2 on a click whose `counter` is the string `1`. -/
theorem handleHTTPAction_mistyped_witness :
    mapLookup (sampleRequest [("keywords", .string "cat nap"),
        ("gif_url", .string "https://a/1.gif"), ("counter", .string "1")]).Context "keywords"
        = some (.string "cat nap")
      ∧ mapLookup (sampleRequest [("keywords", .string "cat nap"),
        ("gif_url", .string "https://a/1.gif"), ("counter", .string "1")]).Context "gif_url"
        = some (.string "https://a/1.gif")
      ∧ mapLookup (sampleRequest [("keywords", .string "cat nap"),
        ("gif_url", .string "https://a/1.gif"), ("counter", .string "1")]).Context "counter"
        = some (.string "1")
      ∧ (isString (.string "cat nap") && isString (.string "https://a/1.gif")
          && isFloat64 (.string "1")) = false
      ∧ handleHTTPAction (samplePlugin false false) (handleCancel (samplePlugin false false))
          (some (sampleRequest [("keywords", .string "cat nap"),
            ("gif_url", .string "https://a/1.gif"), ("counter", .string "1")]))
        = ⟨[], .error .typeAssertion⟩
      ∧ actionCalls (handleHTTPAction (samplePlugin false false) (handleCancel (samplePlugin false false))
          (some (sampleRequest [("keywords", .string "cat nap"),
            ("gif_url", .string "https://a/1.gif"), ("counter", .string "1")]))).trace = []
      ∧ statusesWritten (handleHTTPAction (samplePlugin false false)
          (handleCancel (samplePlugin false false))
          (some (sampleRequest [("keywords", .string "cat nap"),
            ("gif_url", .string "https://a/1.gif"), ("counter", .string "1")]))).trace = [] :=
  ⟨rfl, rfl, rfl, rfl,
   handleHTTPAction_mistyped (samplePlugin false false) (handleCancel (samplePlugin false false))
     (sampleRequest [("keywords", .string "cat nap"),
       ("gif_url", .string "https://a/1.gif"), ("counter", .string "1")])
     (.string "cat nap") (.string "https://a/1.gif") (.string "1") rfl rfl rfl rfl⟩

/-- C10, the claim fails above `2 ^ 53`: the context emitted for the counter
`2 ^ 53 + 1` comes back from the JSON round trip with the `float64`
`2 ^ 53`, and the handler is invoked with the counter `2 ^ 53`. -/
theorem handleHTTPAction_round_trip_loses_precision :
    actionCalls (handleHTTPAction (samplePlugin false false) (handleCancel (samplePlugin false false))
        (some (sampleRequest
          (jsonRoundTrip (actionContext "cat nap" "https://a/1.gif" 9007199254740993))))).trace
      = [(sampleRequest (jsonRoundTrip (actionContext "cat nap" "https://a/1.gif" 9007199254740993)),
          "cat nap", "https://a/1.gif", 9007199254740992)]
    ∧ actionCalls (handleHTTPAction (samplePlugin false false) (handleCancel (samplePlugin false false))
        (some (sampleRequest
          (jsonRoundTrip (actionContext "cat nap" "https://a/1.gif" 9007199254740993))))).trace
      ≠ [(sampleRequest (jsonRoundTrip (actionContext "cat nap" "https://a/1.gif" 9007199254740993)),
          "cat nap", "https://a/1.gif", 9007199254740993)] := by
  constructor
  · decide
  · decide

/-- C10, amended: for a counter from 0 to `2 ^ 53`, on a request whose context
is the JSON round trip of a context emitted by
`generateShufflePostAttachments p keywords gifURL counter`, `handleHTTPAction`
invokes the handler once, with exactly `keywords`, `gifURL` and `counter`;
when the handler returns a status it writes that status, followed by the
content type and the empty acknowledgement body exactly when the status is
200, and writes nothing else. -/
theorem handleHTTPAction_round_trip (p : Plugin) (action : HandlerFunc)
    (request : PostActionIntegrationRequest) (keywords gifURL : String) (counter : Int)
    (h0 : 0 ≤ counter) (h53 : counter ≤ 2 ^ 53)
    (hctx : ∃ c ∈ buttonContexts (generateShufflePostAttachments p keywords gifURL counter),
      request.Context = jsonRoundTrip c) :
    (handleHTTPAction p action (some request)).trace
      = .action request keywords gifURL counter
        :: ((action request keywords gifURL counter).trace
          ++ match (action request keywords gifURL counter).result with
             | .ok status =>
               .writeHeader status
                 :: (if status = 200
                     then [.headerSet "Content-Type" "application/json", .write {}]
                     else [])
             | .error _ => [])
      ∧ (handleHTTPAction p action (some request)).result
        = (match (action request keywords gifURL counter).result with
           | .ok _ => .ok ()
           | .error e => .error e) := by
  obtain ⟨c, hmem, hreq⟩ := hctx
  have hbc : buttonContexts (generateShufflePostAttachments p keywords gifURL counter)
      = List.replicate 3 (actionContext keywords gifURL counter) := rfl
  rw [hbc] at hmem
  have hcEq : c = actionContext keywords gifURL counter := List.eq_of_mem_replicate hmem
  rw [hcEq] at hreq
  have hg : mapLookup request.Context contextGifURL = some (.string gifURL) := by
    rw [hreq]; rfl
  have hk : mapLookup request.Context contextKeywords = some (.string keywords) := by
    rw [hreq]; rfl
  have hc : mapLookup request.Context contextCounter = some (.float64 ⟨counter, 0⟩) := by
    rw [hreq, ← float64OfInt_exact counter h0 h53]; rfl
  have hi : intOfFloat64 ⟨counter, 0⟩ = counter :=
    intOfFloat64_exact counter (by omega) (by omega)
  simp only [handleHTTPAction, handleHTTPActionWith, hg, hk, hc]
  cases hr : (action request keywords gifURL counter).result with
  | error e =>
    simp [bind, Exec.andThen, assertString, assertFloat64, pure, Exec.ret, Exec.emit, hi, hr]
  | ok status =>
    by_cases hs : status = 200
    · simp [bind, Exec.andThen, assertString, assertFloat64, pure, Exec.ret, Exec.emit, hi, hr, hs]
    · simp [bind, Exec.andThen, assertString, assertFloat64, pure, Exec.ret, Exec.emit, hi, hr, hs]

/-- Evaluation of amended C10 at the largest counter it covers, `2 ^ 53`, with
the Cancel handler. -/
theorem handleHTTPAction_round_trip_witness :
    (0 : Int) ≤ 9007199254740992
      ∧ (9007199254740992 : Int) ≤ 2 ^ 53
      ∧ (∃ c ∈ buttonContexts (generateShufflePostAttachments (samplePlugin false false)
            "cat nap" "https://a/1.gif" 9007199254740992),
          (sampleRequest (jsonRoundTrip
            (actionContext "cat nap" "https://a/1.gif" 9007199254740992))).Context = jsonRoundTrip c)
      ∧ (handleHTTPAction (samplePlugin false false) (handleCancel (samplePlugin false false))
          (some (sampleRequest
            (jsonRoundTrip (actionContext "cat nap" "https://a/1.gif" 9007199254740992))))).trace
        = [.action
            (sampleRequest (jsonRoundTrip (actionContext "cat nap" "https://a/1.gif" 9007199254740992)))
            "cat nap" "https://a/1.gif" 9007199254740992,
           .deleteEphemeralPost "user1" { Id := "post1" },
           .writeHeader 200,
           .headerSet "Content-Type" "application/json",
           .write {}]
      ∧ (handleHTTPAction (samplePlugin false false) (handleCancel (samplePlugin false false))
          (some (sampleRequest
            (jsonRoundTrip (actionContext "cat nap" "https://a/1.gif" 9007199254740992))))).result
        = .ok () :=
  ⟨by decide, by decide,
   ⟨actionContext "cat nap" "https://a/1.gif" 9007199254740992, by decide, rfl⟩,
   handleHTTPAction_round_trip (samplePlugin false false)
     (handleCancel (samplePlugin false false))
     (sampleRequest (jsonRoundTrip (actionContext "cat nap" "https://a/1.gif" 9007199254740992)))
     "cat nap" "https://a/1.gif" 9007199254740992 (by decide) (by decide)
     ⟨actionContext "cat nap" "https://a/1.gif" 9007199254740992, by decide, rfl⟩⟩

/-! ## The handlers -/

/-- C8: `handleCancel` makes one call in all, the deletion of the ephemeral
post of the request (its post id, for its user): no post is created or updated,
the provider is not called, and the handler returns 200. -/
theorem handleCancel_deletes_only (p : Plugin) (request : PostActionIntegrationRequest)
    (keywords gifURL : String) (counter : Int) :
    (handleCancel p request keywords gifURL counter).trace
        = [.deleteEphemeralPost request.UserId { Id := request.PostId }]
      ∧ deleteCalls (handleCancel p request keywords gifURL counter).trace
        = [(request.UserId, { Id := request.PostId })]
      ∧ createCalls (handleCancel p request keywords gifURL counter).trace = []
      ∧ updateCalls (handleCancel p request keywords gifURL counter).trace = []
      ∧ providerCalls (handleCancel p request keywords gifURL counter).trace = []
      ∧ (handleCancel p request keywords gifURL counter).result = .ok 200 :=
  ⟨rfl, rfl, rfl, rfl, rfl, rfl⟩

/-- C7: `handlePost` first deletes the ephemeral post of the request (its post
id, for its user) and then creates one post in the request's channel, authored
by the request's user, with the caption of the context's keywords and URL; these
are its only delete and create calls, and it returns 200 when the creation
succeeds and 500 when it fails. -/
theorem handlePost_deletes_then_creates (p : Plugin) (request : PostActionIntegrationRequest)
    (keywords gifURL : String) (counter : Int) :
    (∃ rest, (handlePost p request keywords gifURL counter).trace
        = .deleteEphemeralPost request.UserId { Id := request.PostId }
          :: .createPost { Message := p.generateGifCaption keywords gifURL,
                           UserId := request.UserId, ChannelId := request.ChannelId }
          :: rest
        ∧ deleteCalls rest = [] ∧ createCalls rest = [])
      ∧ deleteCalls (handlePost p request keywords gifURL counter).trace
        = [(request.UserId, { Id := request.PostId })]
      ∧ createCalls (handlePost p request keywords gifURL counter).trace
        = [{ Message := p.generateGifCaption keywords gifURL,
             UserId := request.UserId, ChannelId := request.ChannelId }]
      ∧ (handlePost p request keywords gifURL counter).result
        = .ok (if (p.createPost { Message := p.generateGifCaption keywords gifURL,
                                  UserId := request.UserId,
                                  ChannelId := request.ChannelId }).isSome
               then 500 else 200) := by
  cases h : p.createPost { Message := p.generateGifCaption keywords gifURL,
                           UserId := request.UserId, ChannelId := request.ChannelId } with
  | none =>
    have e : handlePost p request keywords gifURL counter
        = ⟨[.deleteEphemeralPost request.UserId { Id := request.PostId },
            .createPost { Message := p.generateGifCaption keywords gifURL,
                          UserId := request.UserId, ChannelId := request.ChannelId }],
           .ok 200⟩ := by
      simp only [handlePost, h]; rfl
    rw [e]
    exact ⟨⟨[], rfl, rfl, rfl⟩, rfl, rfl, rfl⟩
  | some err =>
    have e : handlePost p request keywords gifURL counter
        = ⟨[.deleteEphemeralPost request.UserId { Id := request.PostId },
            .createPost { Message := p.generateGifCaption keywords gifURL,
                          UserId := request.UserId, ChannelId := request.ChannelId },
            .sendEphemeralPost request.UserId
              { Message := "Giphy Plugin: " ++ "Unable to create post : " ++ "\n`" ++ err.text ++ "`",
                ChannelId := request.ChannelId,
                Props := [("sent_by_plugin", .bool true)] },
            .logWarn "Unable to create post : " (some (p.appError "" (some err)))],
           .ok 500⟩ := by
      simp only [handlePost, h]; rfl
    rw [e]
    exact ⟨⟨_, rfl, rfl, rfl⟩, rfl, rfl, rfl⟩

/-- C6: when the provider call of `handleShuffle` fails, the handler makes no
update, delete or create call, sends one diagnostic ephemeral message to the
acting user (in the request's channel) and returns 503. -/
theorem handleShuffle_provider_failure (p : Plugin) (request : PostActionIntegrationRequest)
    (keywords gifURL url : String) (counter : Int) (err : GoError)
    (hfail : p.gifProvider keywords (wrapInt64 (counter + 1)) = (url, some err)) :
    updateCalls (handleShuffle p request keywords gifURL counter).trace = []
      ∧ deleteCalls (handleShuffle p request keywords gifURL counter).trace = []
      ∧ createCalls (handleShuffle p request keywords gifURL counter).trace = []
      ∧ sendCalls (handleShuffle p request keywords gifURL counter).trace
        = [(request.UserId,
            { Message := "Giphy Plugin: " ++ "Unable to fetch a new Gif for shuffling"
                ++ "\n`" ++ err.text ++ "`",
              ChannelId := request.ChannelId,
              Props := [("sent_by_plugin", .bool true)] })]
      ∧ (handleShuffle p request keywords gifURL counter).result = .ok 503 := by
  have e : handleShuffle p request keywords gifURL counter
      = ⟨[.getGifURL keywords (wrapInt64 (counter + 1)),
          .sendEphemeralPost request.UserId
            { Message := "Giphy Plugin: " ++ "Unable to fetch a new Gif for shuffling"
                ++ "\n`" ++ err.text ++ "`",
              ChannelId := request.ChannelId,
              Props := [("sent_by_plugin", .bool true)] },
          .logWarn "Unable to fetch a new Gif for shuffling" (some (p.appError "" (some err)))],
         .ok 503⟩ := by
    simp only [handleShuffle, hfail]; rfl
  rw [e]
  exact ⟨rfl, rfl, rfl, rfl, rfl⟩

/-- Evaluation of C6 on a shuffle click whose provider call times out. -/
theorem handleShuffle_provider_failure_witness :
    (samplePlugin true false).gifProvider "cat nap" (wrapInt64 (0 + 1)) = ("", some ⟨"timeout"⟩)
      ∧ updateCalls (handleShuffle (samplePlugin true false) (sampleRequest [])
          "cat nap" "https://a/1.gif" 0).trace = []
      ∧ deleteCalls (handleShuffle (samplePlugin true false) (sampleRequest [])
          "cat nap" "https://a/1.gif" 0).trace = []
      ∧ createCalls (handleShuffle (samplePlugin true false) (sampleRequest [])
          "cat nap" "https://a/1.gif" 0).trace = []
      ∧ sendCalls (handleShuffle (samplePlugin true false) (sampleRequest [])
          "cat nap" "https://a/1.gif" 0).trace
        = [((sampleRequest []).UserId,
            { Message := "Giphy Plugin: " ++ "Unable to fetch a new Gif for shuffling"
                ++ "\n`" ++ (GoError.mk "timeout").text ++ "`",
              ChannelId := (sampleRequest []).ChannelId,
              Props := [("sent_by_plugin", .bool true)] })]
      ∧ (handleShuffle (samplePlugin true false) (sampleRequest [])
          "cat nap" "https://a/1.gif" 0).result = .ok 503 :=
  ⟨rfl,
   handleShuffle_provider_failure (samplePlugin true false) (sampleRequest [])
      "cat nap" "https://a/1.gif" "" 0 ⟨"timeout"⟩ rfl⟩

/-- C5, the claim fails at the largest `int`: the attempt `handleShuffle`
passes to the provider is the smallest `int`, not `counter + 1`. The dispatcher
hands this counter to the handler where the conversion `int(f)` saturates: the
click whose context is the JSON round trip of the context for the counter
`2 ^ 63 - 1` carries the `float64` `2 ^ 63`. -/
theorem handleShuffle_wraps_at_max_int :
    providerCalls (handleShuffle (samplePlugin false false) (sampleRequest [])
        "cat nap" "https://a/1.gif" 9223372036854775807).trace
      = [("cat nap", -9223372036854775808)]
    ∧ providerCalls (handleShuffle (samplePlugin false false) (sampleRequest [])
        "cat nap" "https://a/1.gif" 9223372036854775807).trace
      ≠ [("cat nap", 9223372036854775807 + 1)]
    ∧ actionCalls (handleHTTPActionWith intOfFloat64Saturating (samplePlugin false false)
        (handleShuffle (samplePlugin false false))
        (some (sampleRequest
          (jsonRoundTrip (actionContext "cat nap" "https://a/1.gif" 9223372036854775807))))).trace
      = [(sampleRequest (jsonRoundTrip (actionContext "cat nap" "https://a/1.gif" 9223372036854775807)),
          "cat nap", "https://a/1.gif", 9223372036854775807)]
    ∧ providerCalls (handleHTTPActionWith intOfFloat64Saturating (samplePlugin false false)
        (handleShuffle (samplePlugin false false))
        (some (sampleRequest
          (jsonRoundTrip (actionContext "cat nap" "https://a/1.gif" 9223372036854775807))))).trace
      = [("cat nap", -9223372036854775808)] := by
  refine ⟨?_, ?_, ?_, ?_⟩
  · decide
  · decide
  · decide
  · decide

/-- C5, amended: for a counter below the largest `int`, `handleShuffle` calls
the provider once, with the same keywords and attempt `counter + 1`, whether
the provider then succeeds or fails; when it succeeds with URL `u`, the
handler's only other call updates the ephemeral post of the request (same post
id, for the request's user) with the caption of `u` and buttons that all carry
the context `keywords, gif_url = u, counter = counter + 1`, and the handler
returns 200. -/
theorem handleShuffle_increments_counter (p : Plugin) (request : PostActionIntegrationRequest)
    (keywords gifURL : String) (counter : Int)
    (hlo : -(2 ^ 63) ≤ counter) (hhi : counter < 2 ^ 63 - 1) :
    providerCalls (handleShuffle p request keywords gifURL counter).trace
        = [(keywords, counter + 1)]
      ∧ ∀ u : String, p.gifProvider keywords (counter + 1) = (u, none) →
        handleShuffle p request keywords gifURL counter
          = ⟨[.getGifURL keywords (counter + 1),
              .updateEphemeralPost request.UserId
                { Id := request.PostId,
                  ChannelId := request.ChannelId,
                  UserId := request.UserId,
                  Message := p.generateGifCaption keywords u,
                  Props := [("attachments",
                    .attachments (generateShufflePostAttachments p keywords u (counter + 1)))],
                  CreateAt := p.getMillis 0,
                  UpdateAt := p.getMillis 1 }],
             .ok 200⟩
        ∧ buttonContexts (generateShufflePostAttachments p keywords u (counter + 1))
          = List.replicate 3
              [("keywords", .string keywords), ("gif_url", .string u),
               ("counter", .int (counter + 1))] := by
  constructor
  · rcases hp : p.gifProvider keywords (counter + 1) with ⟨u, _ | err⟩
    · simp only [handleShuffle, wrapInt64_succ counter hlo hhi, hp]
      rfl
    · simp only [handleShuffle, wrapInt64_succ counter hlo hhi, hp]
      rfl
  · intro u hok
    refine ⟨?_, rfl⟩
    simp only [handleShuffle, wrapInt64_succ counter hlo hhi, hok]
    rfl

/-- Evaluation of amended C5 on the shuffle click of the specification's
scenario (counter 0, provider answering `https://a/2.gif`) and on the same
click with a provider that fails: the attempt is 1 in both. -/
theorem handleShuffle_increments_counter_witness :
    -(2 ^ 63) ≤ (0 : Int)
      ∧ (0 : Int) < 2 ^ 63 - 1
      ∧ (samplePlugin false false).gifProvider "cat nap" (0 + 1) = ("https://a/2.gif", none)
      ∧ providerCalls (handleShuffle (samplePlugin false false)
          (sampleRequest (jsonRoundTrip (actionContext "cat nap" "https://a/1.gif" 0)))
          "cat nap" "https://a/1.gif" 0).trace = [("cat nap", 0 + 1)]
      ∧ handleShuffle (samplePlugin false false)
          (sampleRequest (jsonRoundTrip (actionContext "cat nap" "https://a/1.gif" 0)))
          "cat nap" "https://a/1.gif" 0
        = ⟨[.getGifURL "cat nap" (0 + 1),
            .updateEphemeralPost "user1"
              { Id := "post1",
                ChannelId := "channel1",
                UserId := "user1",
                Message := "cat nap https://a/2.gif",
                Props := [("attachments",
                  .attachments (generateShufflePostAttachments (samplePlugin false false)
                    "cat nap" "https://a/2.gif" (0 + 1)))],
                CreateAt := 1000,
                UpdateAt := 1001 }],
           .ok 200⟩
      ∧ buttonContexts (generateShufflePostAttachments (samplePlugin false false)
          "cat nap" "https://a/2.gif" (0 + 1))
        = List.replicate 3
            [("keywords", .string "cat nap"), ("gif_url", .string "https://a/2.gif"),
             ("counter", .int (0 + 1))]
      ∧ providerCalls (handleShuffle (samplePlugin true false)
          (sampleRequest (jsonRoundTrip (actionContext "cat nap" "https://a/1.gif" 0)))
          "cat nap" "https://a/1.gif" 0).trace = [("cat nap", 0 + 1)] :=
  ⟨by decide, by decide, rfl,
   (handleShuffle_increments_counter (samplePlugin false false)
     (sampleRequest (jsonRoundTrip (actionContext "cat nap" "https://a/1.gif" 0)))
     "cat nap" "https://a/1.gif" 0 (by decide) (by decide)).1,
   ((handleShuffle_increments_counter (samplePlugin false false)
     (sampleRequest (jsonRoundTrip (actionContext "cat nap" "https://a/1.gif" 0)))
     "cat nap" "https://a/1.gif" 0 (by decide) (by decide)).2 "https://a/2.gif" rfl).1,
   ((handleShuffle_increments_counter (samplePlugin false false)
     (sampleRequest (jsonRoundTrip (actionContext "cat nap" "https://a/1.gif" 0)))
     "cat nap" "https://a/1.gif" 0 (by decide) (by decide)).2 "https://a/2.gif" rfl).2,
   (handleShuffle_increments_counter (samplePlugin true false)
     (sampleRequest (jsonRoundTrip (actionContext "cat nap" "https://a/1.gif" 0)))
     "cat nap" "https://a/1.gif" 0 (by decide) (by decide)).1⟩

/-- C9: for every keywords, URL and counter, `generateShufflePostAttachments`
returns one attachment whose actions are three buttons named Cancel, Shuffle,
Send in that order, each carrying the context
`keywords, gif_url = gifURL, counter = counter`; and when the provider answers
the command's attempt 0 with URL `u`, `executeCommandGifShuffle` calls the
provider once, for attempt 0, and returns the ephemeral response made of the
caption of `u` and of these attachments for `u` and counter 0. -/
theorem generateShufflePostAttachments_three_buttons (p : Plugin)
    (keywords gifURL command : String) (counter : Int) :
    (generateShufflePostAttachments p keywords gifURL counter).length = 1
      ∧ (generateShufflePostAttachments p keywords gifURL counter).map
          (fun a => a.Actions.map (fun b => b.Name)) = [["Cancel", "Shuffle", "Send"]]
      ∧ buttonContexts (generateShufflePostAttachments p keywords gifURL counter)
        = List.replicate 3
            [("keywords", .string keywords), ("gif_url", .string gifURL), ("counter", .int counter)]
      ∧ ∀ u : String, p.gifProvider (p.getCommandKeywords command p.triggerGifs) 0 = (u, none) →
        executeCommandGifShuffle p command
          = ⟨[.getGifURL (p.getCommandKeywords command p.triggerGifs) 0],
             .ok (.ok { ResponseType := "ephemeral",
                        Text := p.generateGifCaption (p.getCommandKeywords command p.triggerGifs) u,
                        Attachments := generateShufflePostAttachments p
                          (p.getCommandKeywords command p.triggerGifs) u 0 })⟩ := by
  refine ⟨rfl, rfl, rfl, ?_⟩
  intro u hok
  simp only [executeCommandGifShuffle, hok]
  rfl

/-- Evaluation of C9 on the command of the specification's scenario, and of
its buttons on a plugin whose provider always fails. -/
theorem generateShufflePostAttachments_three_buttons_witness :
    (samplePlugin false false).gifProvider
        ((samplePlugin false false).getCommandKeywords "/gifshuffle cat nap"
          (samplePlugin false false).triggerGifs) 0 = ("https://a/2.gif", none)
      ∧ (samplePlugin false false).getCommandKeywords "/gifshuffle cat nap"
          (samplePlugin false false).triggerGifs = "cat nap"
      ∧ (generateShufflePostAttachments (samplePlugin false false)
          "cat nap" "https://a/2.gif" 0).length = 1
      ∧ (generateShufflePostAttachments (samplePlugin false false)
          "cat nap" "https://a/2.gif" 0).map
          (fun a => a.Actions.map (fun b => b.Name)) = [["Cancel", "Shuffle", "Send"]]
      ∧ buttonContexts (generateShufflePostAttachments (samplePlugin false false)
          "cat nap" "https://a/2.gif" 0)
        = List.replicate 3
            [("keywords", .string "cat nap"), ("gif_url", .string "https://a/2.gif"),
             ("counter", .int 0)]
      ∧ executeCommandGifShuffle (samplePlugin false false) "/gifshuffle cat nap"
        = ⟨[.getGifURL "cat nap" 0],
           .ok (.ok { ResponseType := "ephemeral",
                      Text := "cat nap https://a/2.gif",
                      Attachments := generateShufflePostAttachments (samplePlugin false false)
                        "cat nap" "https://a/2.gif" 0 })⟩
      ∧ buttonContexts (generateShufflePostAttachments (samplePlugin true false)
          "cat nap" "https://a/1.gif" 7)
        = List.replicate 3
            [("keywords", .string "cat nap"), ("gif_url", .string "https://a/1.gif"),
             ("counter", .int 7)] :=
  ⟨rfl, by decide,
   (generateShufflePostAttachments_three_buttons (samplePlugin false false)
      "cat nap" "https://a/2.gif" "/gifshuffle cat nap" 0).1,
   (generateShufflePostAttachments_three_buttons (samplePlugin false false)
      "cat nap" "https://a/2.gif" "/gifshuffle cat nap" 0).2.1,
   (generateShufflePostAttachments_three_buttons (samplePlugin false false)
      "cat nap" "https://a/2.gif" "/gifshuffle cat nap" 0).2.2.1,
   (generateShufflePostAttachments_three_buttons (samplePlugin false false)
      "cat nap" "https://a/2.gif" "/gifshuffle cat nap" 0).2.2.2 "https://a/2.gif" rfl,
   (generateShufflePostAttachments_three_buttons (samplePlugin true false)
      "cat nap" "https://a/1.gif" "/gifshuffle cat nap" 7).2.2.1⟩

/-! ## The Gfycat provider -/

/-- C3: on a successful search answer (request built, call made, status 200,
body decoded) whose `gfycats` list is not empty, `getGifURL` returns, with a
nil error, the URL of the configured rendition of the first result, unless that
URL is empty (as it is when the rendition key is absent) or ends in `.webm` or
`.mp4`, in which case it returns the `gifUrl` of the first result: the
specification's `resolveURL` of the two. -/
theorem getGifURL_rendition_fallback (appError : String → Option GoError → GoError)
    (config : PluginConfiguration) (x : GfycatExchange) (response : GfySearchResult)
    (gif : GfyGIF) (rest : List GfyGIF)
    (h1 : x.newRequestErr = none) (h2 : x.doErr = none) (h3 : x.StatusCode = 200)
    (h4 : x.decoded = .ok response) (h5 : response.Gfycats = gif :: rest) :
    getGifURL appError config x
        = (resolveURL (contentUrlAt gif.ContentUrls config.RenditionGfycat).Url gif.GifUrl, none)
      ∧ (contentUrlAt gif.ContentUrls config.RenditionGfycat).Url
        = ((gif.ContentUrls.lookup config.RenditionGfycat).map (fun c => c.Url)).getD "" := by
  constructor
  · simp only [getGifURL, h1, h2, h3, h4, h5, resolveURL]
    by_cases ha : (contentUrlAt gif.ContentUrls config.RenditionGfycat).Url = ""
    · simp [ha]
    · by_cases hb : hasSuffix (contentUrlAt gif.ContentUrls config.RenditionGfycat).Url ".webm" = true
      · simp [ha, hb]
      · by_cases hc : hasSuffix (contentUrlAt gif.ContentUrls config.RenditionGfycat).Url ".mp4" = true
        · simp [ha, hb, hc]
        · simp [ha, hb, hc]
  · unfold contentUrlAt
    cases gif.ContentUrls.lookup config.RenditionGfycat <;> rfl

/-- Evaluation of C3 on the three cases of the specification: rendition
absent, rendition ending in `.mp4`, rendition ending in `.jpg`. -/
theorem getGifURL_rendition_fallback_witness :
    (successfulExchange (sampleResponse "https://x/g.gif"
        [("mp4", { Url := "https://x/g.mp4" })])).newRequestErr = none
      ∧ (successfulExchange (sampleResponse "https://x/g.gif"
        [("mp4", { Url := "https://x/g.mp4" })])).doErr = none
      ∧ (successfulExchange (sampleResponse "https://x/g.gif"
        [("mp4", { Url := "https://x/g.mp4" })])).StatusCode = 200
      ∧ (successfulExchange (sampleResponse "https://x/g.gif"
        [("mp4", { Url := "https://x/g.mp4" })])).decoded
          = .ok (sampleResponse "https://x/g.gif" [("mp4", { Url := "https://x/g.mp4" })])
      ∧ (sampleResponse "https://x/g.gif" [("mp4", { Url := "https://x/g.mp4" })]).Gfycats
          = [{ GifUrl := "https://x/g.gif", ContentUrls := [("mp4", { Url := "https://x/g.mp4" })] }]
      ∧ getGifURL (samplePlugin false false).appError ⟨"mp4"⟩
          (successfulExchange (sampleResponse "https://x/g.gif"
            [("mp4", { Url := "https://x/g.mp4" })]))
        = (resolveURL "https://x/g.mp4" "https://x/g.gif", none)
      ∧ resolveURL "https://x/g.mp4" "https://x/g.gif" = "https://x/g.gif"
      ∧ getGifURL (samplePlugin false false).appError ⟨"max2mbGif"⟩
          (successfulExchange (sampleResponse "https://x/g.gif"
            [("mp4", { Url := "https://x/g.mp4" })]))
        = ("https://x/g.gif", none)
      ∧ getGifURL (samplePlugin false false).appError ⟨"mobilePoster"⟩
          (successfulExchange (sampleResponse "https://x/g.gif"
            [("mobilePoster", { Url := "https://x/g.jpg" })]))
        = ("https://x/g.jpg", none) :=
  ⟨rfl, rfl, rfl, rfl, rfl,
   (getGifURL_rendition_fallback (samplePlugin false false).appError ⟨"mp4"⟩
      (successfulExchange (sampleResponse "https://x/g.gif" [("mp4", { Url := "https://x/g.mp4" })]))
      (sampleResponse "https://x/g.gif" [("mp4", { Url := "https://x/g.mp4" })])
      { GifUrl := "https://x/g.gif", ContentUrls := [("mp4", { Url := "https://x/g.mp4" })] } []
      rfl rfl rfl rfl rfl).1,
   by decide, by decide, by decide⟩

/-- C4, the claim fails when the fallback itself is a video: the configured
rendition is absent, the first result's `gifUrl` ends in `.mp4`, and
`getGifURL` succeeds with that URL. -/
theorem getGifURL_returns_video_gifUrl :
    getGifURL (samplePlugin false false).appError ⟨"max2mbGif"⟩
        (successfulExchange (sampleResponse "https://x/g.mp4" []))
      = ("https://x/g.mp4", none)
    ∧ hasSuffix "https://x/g.mp4" ".mp4" = true := by
  constructor
  · decide
  · decide

/-- C4, amended: when `getGifURL` succeeds, the URL it returns does not end in
`.webm` or `.mp4` unless it is the `gifUrl` of the first result, which is
returned as it is. -/
theorem getGifURL_suffix_only_from_gifUrl (appError : String → Option GoError → GoError)
    (config : PluginConfiguration) (x : GfycatExchange) (u : String)
    (hsucc : getGifURL appError config x = (u, none)) :
    ∃ response gif rest, x.decoded = .ok response ∧ response.Gfycats = gif :: rest
      ∧ (u = gif.GifUrl ∨ (hasSuffix u ".webm" = false ∧ hasSuffix u ".mp4" = false)) := by
  unfold getGifURL at hsucc
  split at hsucc
  · simp at hsucc
  · split at hsucc
    · simp at hsucc
    · split at hsucc
      · simp at hsucc
      · split at hsucc
        · simp at hsucc
        · rename_i response hdec
          split at hsucc
          · simp at hsucc
          · rename_i gif rest hg
            refine ⟨response, gif, rest, hdec, hg, ?_⟩
            simp only [Prod.mk.injEq, and_true] at hsucc
            split at hsucc
            · exact Or.inl hsucc.symm
            · rename_i hno
              right
              rw [← hsucc]
              simp only [not_or, Bool.not_eq_true] at hno
              exact ⟨hno.2.1, hno.2.2⟩

/-- Evaluation of amended C4 on an answer whose configured rendition is a
`.jpg` poster. -/
theorem getGifURL_suffix_only_from_gifUrl_witness :
    getGifURL (samplePlugin false false).appError ⟨"mobilePoster"⟩
        (successfulExchange (sampleResponse "https://x/g.gif"
          [("mobilePoster", { Url := "https://x/g.jpg" })]))
      = ("https://x/g.jpg", none)
    ∧ ∃ response gif rest,
        (successfulExchange (sampleResponse "https://x/g.gif"
          [("mobilePoster", { Url := "https://x/g.jpg" })])).decoded = .ok response
        ∧ response.Gfycats = gif :: rest
        ∧ ("https://x/g.jpg" = gif.GifUrl
          ∨ (hasSuffix "https://x/g.jpg" ".webm" = false ∧ hasSuffix "https://x/g.jpg" ".mp4" = false)) :=
  ⟨by decide,
   getGifURL_suffix_only_from_gifUrl (samplePlugin false false).appError ⟨"mobilePoster"⟩
     (successfulExchange (sampleResponse "https://x/g.gif"
       [("mobilePoster", { Url := "https://x/g.jpg" })]))
     "https://x/g.jpg" (by decide)⟩

end Giphy
